import Mathlib

/-!
Verification of the slippage-sentinel repository.

This file shallowly embeds the slippage estimation engine
(`src/pool_analyzer.py`, `src/trade_history.py`, `src/route_finder.py`,
`src/slippage_calculator.py`, and the `estimate_slippage` endpoint of
`src/main.py`) into Lean and proves or refutes the frozen claims about it.

Modelling conventions:
- Python integers are `ℤ` (or `ℕ` where the source guarantees non-negative
  on-chain quantities such as reserves).
- Python `float` values are modelled as exact rationals `ℚ` in the price
  impact and aggregation arithmetic, where only order-of-magnitude and
  branch structure matter to the claims.  In `estimate_liquidity_depth`,
  where a claim hinges on the exact integer produced from a float product,
  floats are modelled by an IEEE-754 binary64 round-to-nearest-even model
  (`roundDouble` below) over exact rationals.
- Fallible operations return `Option`; `none` models either a `None` return
  value or an uncaught Python exception, as noted at each definition.
- External RPC collaborators (route lookup, reserve reads, log queries) are
  modelled as deterministic function-valued environment parameters.
-/

/-! ## Python numeric primitives -/

/-- Truncation toward zero, modelling Python `int(x)` applied to a real
value (`int(1.9) = 1`, `int(-1.9) = -1`). -/
def pyTrunc (q : ℚ) : ℤ := if q < 0 then -⌊-q⌋ else ⌊q⌋

/-- Python integer floor division `//`.  `none` models `ZeroDivisionError`. -/
def pyFloorDiv (n d : ℤ) : Option ℤ := if d = 0 then none else some (Int.fdiv n d)

/-! ## IEEE-754 binary64 model

A positive rational is rounded to 53 significant bits, round-to-nearest,
ties to even.  The model covers the normal range of doubles, which is the
only range exercised by the program's float arithmetic on reserve values.
-/

/-- Floor of the base-2 logarithm of a positive rational, via `Nat.log2` on numerator and
denominator with a correction step. -/
def qlog2 (q : ℚ) : ℤ :=
  if (2 : ℚ) ^ ((Nat.log2 q.num.toNat : ℤ) - (Nat.log2 q.den : ℤ)) ≤ q
  then (Nat.log2 q.num.toNat : ℤ) - (Nat.log2 q.den : ℤ)
  else (Nat.log2 q.num.toNat : ℤ) - (Nat.log2 q.den : ℤ) - 1

/-- Round a rational to the nearest integer, ties to even. -/
def rhe (m : ℚ) : ℤ :=
  if m - ⌊m⌋ < 1 / 2 then ⌊m⌋
  else if (1 / 2 : ℚ) < m - ⌊m⌋ then ⌊m⌋ + 1
  else if ⌊m⌋ % 2 = 0 then ⌊m⌋ else ⌊m⌋ + 1

/-- Round a positive rational to 53 significant binary digits,
round-to-nearest, ties to even. -/
def roundPos (q : ℚ) : ℚ :=
  (rhe (q * (2 : ℚ) ^ (52 - qlog2 q)) : ℚ) * (2 : ℚ) ^ (qlog2 q - 52)

/-- The binary64 value nearest a rational (sign-symmetric, normal range). -/
def roundDouble (q : ℚ) : ℚ :=
  if q = 0 then 0 else if q < 0 then -roundPos (-q) else roundPos q

/-- Conversion of a Python `int` to `float`. -/
def floatOfNat (n : ℕ) : ℚ := roundDouble n

/-- Binary64 multiplication: one rounding of the exact product. -/
def dmul (x y : ℚ) : ℚ := roundDouble (x * y)

/-- Binary64 division: one rounding of the exact quotient.  The program
never divides by zero here (denominators are powers of ten). -/
def ddiv (x y : ℚ) : ℚ := if y = 0 then 0 else roundDouble (x / y)

/-- The binary64 value of the literal `0.01`. -/
def d001 : ℚ := roundDouble (1 / 100)

/-! ## Pool Reserve Analyzer (`src/pool_analyzer.py`) -/

/-- Result of `PoolAnalyzer.get_pool_reserves`: the pool's reserves mapped to
the requested trade direction.  Reserves are on-chain `uint112` balances. -/
structure PoolReserves where
  reserve_in : ℕ
  reserve_out : ℕ
deriving DecidableEq

/-- Embeds `PoolAnalyzer.calculate_output_amount`: constant-product output with fee,
in Python integer arithmetic.  `none` models the uncaught
`ZeroDivisionError` raised when the denominator is zero. -/
def calculate_output_amount (amount_in reserve_in reserve_out fee_bps : ℤ) : Option ℤ :=
  pyFloorDiv (amount_in * (10000 - fee_bps) * reserve_out)
    (reserve_in * 10000 + amount_in * (10000 - fee_bps))

/-- Embeds `PoolAnalyzer.calculate_price_impact`: linear price impact in percent,
with the `100.0` sentinel for an empty input reserve.  The float arithmetic
is modelled exactly over `ℚ`. -/
def calculate_price_impact (amount_in : ℤ) (reserve_in reserve_out : ℕ) : ℚ :=
  if reserve_in = 0 then 100 else ((amount_in : ℚ) / (reserve_in : ℚ)) * 100

/-- The `liquidity_score` string: "low", "medium" or "high". -/
inductive LiquidityScore where
  | low
  | medium
  | high
deriving DecidableEq

/-- Result of `PoolAnalyzer.estimate_liquidity_depth`. -/
structure LiquidityDepth where
  reserve_in_tokens : ℚ
  reserve_out_tokens : ℚ
  liquidity_score : LiquidityScore
  recommended_max_trade : ℤ

/-- Embeds `PoolAnalyzer.estimate_liquidity_depth`.  The float conversions and the
`int(reserve_in * 0.01)` product are modelled with binary64 rounding. -/
def estimate_liquidity_depth (reserve_in reserve_out : ℕ)
    (decimals_in decimals_out : ℕ) : LiquidityDepth :=
  let reserve_in_tokens := ddiv (floatOfNat reserve_in) (floatOfNat (10 ^ decimals_in))
  let reserve_out_tokens := ddiv (floatOfNat reserve_out) (floatOfNat (10 ^ decimals_out))
  let recommended_max_trade := pyTrunc (dmul (floatOfNat reserve_in) d001)
  let liquidity_score :=
    if reserve_in_tokens > 100 then LiquidityScore.high
    else if reserve_in_tokens > 10 then LiquidityScore.medium
    else LiquidityScore.low
  ⟨reserve_in_tokens, reserve_out_tokens, liquidity_score, recommended_max_trade⟩

/-! ## Trade History Analyzer (`src/trade_history.py`) -/

/-- A decoded `Swap` event entry as built by `get_recent_swaps`:
four unsigned 256-bit words plus `trade_size = amount0In + amount1In`. -/
structure SwapEvent where
  block : ℕ
  amount0In : ℕ
  amount1In : ℕ
  amount0Out : ℕ
  amount1Out : ℕ
  trade_size : ℕ
deriving DecidableEq

/-- Result of `TradeHistoryAnalyzer.analyze_trade_sizes`. -/
structure VolatilityMetrics where
  trade_size_p50 : ℤ
  trade_size_p95 : ℤ
  trade_size_p99 : ℤ
  volatility_factor : ℚ
  total_swaps : ℕ
deriving DecidableEq

/-- Model of `np.percentile` with the default linear interpolation between order
statistics of the ascending-sorted data. -/
def percentile (xs : List ℕ) (p : ℚ) : ℚ :=
  let s := xs.mergeSort (fun a b => Nat.ble a b)
  let n := s.length
  let h := ((n : ℚ) - 1) * p / 100
  let i := (⌊h⌋).toNat
  let lo : ℚ := ((s.getD i 0 : ℕ) : ℚ)
  let hi : ℚ := ((s.getD (i + 1) (s.getD i 0) : ℕ) : ℚ)
  lo + (h - ⌊h⌋) * (hi - lo)

/-- Embeds `TradeHistoryAnalyzer.analyze_trade_sizes`.  `np.std` takes a square
root, which is irrational over `ℚ`; the function is therefore parameterized
by the square-root routine `sqrtQ` (the claims hold for every `sqrtQ`). -/
def analyze_trade_sizes (sqrtQ : ℚ → ℚ) (swaps : List SwapEvent) : VolatilityMetrics :=
  if swaps = [] then ⟨0, 0, 0, 0, 0⟩
  else
    let trade_sizes := (swaps.map SwapEvent.trade_size).filter (fun t => decide (0 < t))
    if trade_sizes = [] then ⟨0, 0, 0, 0, swaps.length⟩
    else
      let trade_size_p50 := pyTrunc (percentile trade_sizes 50)
      let trade_size_p95 := pyTrunc (percentile trade_sizes 95)
      let trade_size_p99 := pyTrunc (percentile trade_sizes 99)
      let mean_size : ℚ := ((trade_sizes.sum : ℕ) : ℚ) / (trade_sizes.length : ℚ)
      let variance : ℚ :=
        ((trade_sizes.map (fun t => ((t : ℚ) - mean_size) ^ 2)).sum) / (trade_sizes.length : ℚ)
      let std_size : ℚ := sqrtQ variance
      let volatility_factor := if 0 < mean_size then std_size / mean_size else 0
      ⟨trade_size_p50, trade_size_p95, trade_size_p99, volatility_factor, swaps.length⟩

/-! ## Route Discovery (`src/route_finder.py`, `src/dex_config.py`) -/

/-- The `DEX_FACTORIES` table of `src/dex_config.py`: exchange name to
factory address per chain, in the dict's insertion (enumeration) order. -/
def DEX_FACTORIES (chain_id : ℕ) : List (String × String) :=
  if chain_id = 1 then
    [("uniswap_v2", "0x5C69bEe701ef814a2B6a3EDD4B1652CB9cc5aA6f"),
     ("sushiswap", "0xC0AEe478e3658e2610c5F7A4A2E1777cE9e4f2Ac")]
  else if chain_id = 137 then
    [("quickswap", "0x5757371414417b8C6CAad45bAeF941aBc7d3Ab32"),
     ("sushiswap", "0xc35DADB65012eC5796536bD9864eD8773aBc74C4")]
  else if chain_id = 42161 then
    [("sushiswap", "0xc35DADB65012eC5796536bD9864eD8773aBc74C4"),
     ("uniswap_v2", "0xf1D7CC64Fb4452F05c498126312eBE29f30Fbcf9")]
  else if chain_id = 10 then
    [("uniswap_v2", "0x0c3c1c532F1e39EdF36BE9Fe0bE1410313E074Bf")]
  else if chain_id = 8453 then
    [("uniswap_v2", "0x8909Dc15e40173Ff4699343b6eB8132c65e18eC6")]
  else if chain_id = 56 then
    [("pancakeswap", "0xcA143Ce32Fe78f1f7019d7d551a6402fC5350c73"),
     ("sushiswap", "0xc35DADB65012eC5796536bD9864eD8773aBc74C4")]
  else if chain_id = 43114 then
    [("traderjoe", "0x9Ad6C38BE94206cA50bb0d90783181662f0Cfa10"),
     ("sushiswap", "0xc35DADB65012eC5796536bD9864eD8773aBc74C4")]
  else []

/-- The all-zero sentinel address a factory returns when it has no pair. -/
def zeroAddress : String := "0x0000000000000000000000000000000000000000"

/-- Python `str.lower()` on the ASCII exchange-name strings used here. -/
def pyLower (s : String) : String := String.mk (s.data.map Char.toLower)

/-- The RPC environment of `RouteFinder`: whether the chain's Web3
connection succeeds, and the factory `getPair` call (`none` models an RPC
error or contract revert, absorbed per exchange). -/
structure RpcEnv where
  w3ok : ℕ → Bool
  getPair : ℕ → String → String → String → Option String

/-- A route as returned by `RouteFinder.find_best_route`. -/
structure Route where
  pair_address : String
  dex_name : String
  factory_address : Option String
deriving DecidableEq

/-- Embeds `RouteFinder.find_pair_on_dex`: any failure (no connection, unknown
exchange, RPC error) and the zero sentinel all collapse to `none`. -/
def find_pair_on_dex (env : RpcEnv) (chain_id : ℕ)
    (dex_name token_in token_out : String) : Option String :=
  if env.w3ok chain_id = false then none
  else
    match (DEX_FACTORIES chain_id).lookup (pyLower dex_name) with
    | none => none
    | some factory_address =>
      match env.getPair chain_id factory_address token_in token_out with
      | none => none
      | some pair_address =>
        if pair_address = zeroAddress then none else some pair_address

/-- The first-found scan over configured exchanges inside
`RouteFinder.find_best_route`. -/
def find_best_route_scan (env : RpcEnv) (chain_id : ℕ) (token_in token_out : String) :
    List (String × String) → Option Route
  | [] => none
  | (dex_name, factory_address) :: rest =>
    match find_pair_on_dex env chain_id dex_name token_in token_out with
    | some pair_address => some ⟨pair_address, dex_name, some factory_address⟩
    | none => find_best_route_scan env chain_id token_in token_out rest

/-- Embeds `RouteFinder.find_best_route`: the hint short-circuits when it resolves
a pair, otherwise every configured exchange is scanned in registry order. -/
def find_best_route (env : RpcEnv) (chain_id : ℕ) (token_in token_out : String)
    (route_hint : Option String) : Option Route :=
  match route_hint with
  | some hint =>
    match find_pair_on_dex env chain_id hint token_in token_out with
    | some pair_address =>
      some ⟨pair_address, hint, (DEX_FACTORIES chain_id).lookup (pyLower hint)⟩
    | none => find_best_route_scan env chain_id token_in token_out (DEX_FACTORIES chain_id)
  | none => find_best_route_scan env chain_id token_in token_out (DEX_FACTORIES chain_id)

/-- A probe environment for the C4 witness: on chain 1, the first exchange
(uniswap_v2) answers with the zero sentinel, the second (sushiswap) has a
pair. -/
def envC4 : RpcEnv :=
  ⟨fun _ => true,
   fun _ factory_address _ _ =>
     if factory_address = "0xC0AEe478e3658e2610c5F7A4A2E1777cE9e4f2Ac"
     then some "0xPAIR" else some zeroAddress⟩

/-! ## Slippage Aggregator (`src/slippage_calculator.py`) -/

/-- The collaborators of `SlippageCalculator`, modelled as deterministic
functions: `RouteFinder.find_best_route`, `PoolAnalyzer.get_pool_reserves`
and `TradeHistoryAnalyzer.get_volatility_metrics` (the latter is total
because the source absorbs every history failure into zero metrics). -/
structure SlipEnv where
  find_best_route : ℕ → String → String → Option String → Option Route
  get_pool_reserves : ℕ → String → String → String → Option PoolReserves
  get_volatility_metrics : ℕ → String → ℕ → VolatilityMetrics

/-- The `pool_depths` sub-dict of the recommendation (the source stringifies
the raw reserves; the numbers themselves are modelled). -/
structure PoolDepths where
  token_in_reserve : ℕ
  token_out_reserve : ℕ
  reserve_in_tokens : ℚ
  reserve_out_tokens : ℚ
  liquidity_score : LiquidityScore

/-- The dict returned by `calculate_safe_slippage`. -/
structure SlippageRecommendation where
  min_safe_slip_bps : ℤ
  pool_depths : PoolDepths
  recent_trade_size_p95 : ℤ
  price_impact_bps : ℤ
  volatility_factor : ℚ
  recommended_max_trade : ℤ
  route_used : String
  pair_address : String

/-- Python `round(x, 4)`: round half to even at four decimal places. -/
def pyRound4 (q : ℚ) : ℚ := (rhe (q * 10 ^ 4) : ℚ) / 10 ^ 4

/-- Embeds `SlippageCalculator.calculate_safe_slippage`: the linear pipeline
route -> reserves -> impact/depth/volatility -> weighted, clamped score. -/
def calculate_safe_slippage (env : SlipEnv) (chain_id : ℕ)
    (token_in token_out : String) (amount_in : ℤ) (route_hint : Option String) :
    Option SlippageRecommendation :=
  match env.find_best_route chain_id token_in token_out route_hint with
  | none => none
  | some route =>
    match env.get_pool_reserves chain_id route.pair_address token_in token_out with
    | none => none
    | some reserves =>
      let reserve_in := reserves.reserve_in
      let reserve_out := reserves.reserve_out
      let price_impact_pct := calculate_price_impact amount_in reserve_in reserve_out
      let price_impact_bps := pyTrunc (price_impact_pct * 100)
      let liquidity_metrics := estimate_liquidity_depth reserve_in reserve_out 18 18
      let volatility_metrics := env.get_volatility_metrics chain_id route.pair_address 500
      let volatility_factor := volatility_metrics.volatility_factor
      let trade_size_p95 := volatility_metrics.trade_size_p95
      let base_slippage_bps := pyTrunc ((price_impact_bps : ℚ) * (3 / 2))
      let volatility_buffer_bps := pyTrunc (volatility_factor * 100)
      let liquidity_buffer_bps : ℤ :=
        match liquidity_metrics.liquidity_score with
        | .low => 50
        | .medium => 25
        | .high => 10
      let mev_buffer_bps : ℤ := 20
      let min_safe_slip_bps :=
        max 50 (min 5000
          (base_slippage_bps + volatility_buffer_bps + liquidity_buffer_bps + mev_buffer_bps))
      some ⟨min_safe_slip_bps,
        ⟨reserve_in, reserve_out, liquidity_metrics.reserve_in_tokens,
         liquidity_metrics.reserve_out_tokens, liquidity_metrics.liquidity_score⟩,
        trade_size_p95, price_impact_bps, pyRound4 volatility_factor,
        liquidity_metrics.recommended_max_trade, route.dex_name, route.pair_address⟩

/-- One entry of `hop_details` in the multi-hop result. -/
structure HopDetail where
  token_in : String
  token_out : String
  slippage_bps : ℤ
  pair_address : String

/-- The dict returned by `calculate_multi_hop_slippage`. -/
structure MultiHopResult where
  total_slippage_bps : ℤ
  num_hops : ℕ
  hop_details : List HopDetail

/-- The loop of `calculate_multi_hop_slippage`, against a nondeterministic
RPC world: `envs t` is the state the collaborators answer with at instant
`t`, so successive RPC calls may see different chain state or transient
failures.  Hop `i`'s single-hop pipeline runs at instant `2 * i`; the
separate reserve refetch that the source then makes to propagate the
output amount (slippage_calculator.py lines 186-192) runs at instant
`2 * i + 1`.  As in the source, a failed refetch is silently absorbed and
the stale current amount is kept; a zero denominator in
`calculate_output_amount` is an uncaught exception and fails the call. -/
def multi_hop_go (envs : ℕ → SlipEnv) (chain_id : ℕ) :
    List (String × String) → ℕ → ℤ → ℤ → List HopDetail → Option (ℤ × List HopDetail)
  | [], _, _, total, details => some (total, details)
  | (token_in, token_out) :: rest, t, current_amount, total, details =>
    match calculate_safe_slippage (envs t) chain_id token_in token_out current_amount none with
    | none => none
    | some result =>
      let total' := total + result.min_safe_slip_bps
      let details' := details ++
        [⟨token_in, token_out, result.min_safe_slip_bps, result.pair_address⟩]
      match (envs (t + 1)).get_pool_reserves chain_id result.pair_address
          token_in token_out with
      | some reserves =>
        match calculate_output_amount current_amount reserves.reserve_in
            reserves.reserve_out 30 with
        | none => none
        | some amount_out => multi_hop_go envs chain_id rest (t + 2) amount_out total' details'
      | none => multi_hop_go envs chain_id rest (t + 2) current_amount total' details'

/-- Embeds `SlippageCalculator.calculate_multi_hop_slippage` over the
instant-indexed RPC world. -/
def calculate_multi_hop_slippage (envs : ℕ → SlipEnv) (chain_id : ℕ)
    (route : List (String × String)) (amount_in : ℤ) : Option MultiHopResult :=
  match multi_hop_go envs chain_id route 0 amount_in 0 [] with
  | none => none
  | some (total_slippage_bps, hop_details) =>
    some ⟨min 5000 total_slippage_bps, route.length, hop_details⟩

/-- A concrete environment for the C1 witness: one route, an empty pool,
zero volatility metrics. -/
def envC1 : SlipEnv :=
  ⟨fun _ _ _ _ => some ⟨"0xpair", "testdex", none⟩,
   fun _ _ _ _ => some ⟨0, 0⟩,
   fun _ _ _ => ⟨0, 0, 0, 0, 0⟩⟩

/-- The RPC trace of the C2 counterexample: at instant 0 (the hop's
single-hop pipeline) the route resolves and the reserve read succeeds;
from instant 1 on (the hop's propagation refetch) the reserve read fails
transiently. -/
def envsC2 : ℕ → SlipEnv := fun t =>
  if t = 0 then
    ⟨fun _ _ _ _ => some ⟨"0xpair", "testdex", none⟩,
     fun _ _ _ _ => some ⟨0, 0⟩,
     fun _ _ _ => ⟨0, 0, 0, 0, 0⟩⟩
  else
    ⟨fun _ _ _ _ => some ⟨"0xpair", "testdex", none⟩,
     fun _ _ _ _ => none,
     fun _ _ _ => ⟨0, 0, 0, 0, 0⟩⟩

/-- A constant RPC trace where every call succeeds, for the C2 witness. -/
def envsC2w : ℕ → SlipEnv := fun _ =>
  ⟨fun _ _ _ _ => some ⟨"0xpair", "testdex", none⟩,
   fun _ _ _ _ => some ⟨0, 0⟩,
   fun _ _ _ => ⟨0, 0, 0, 0, 0⟩⟩

/-- An environment with no route anywhere, for C3. -/
def envC3a : SlipEnv :=
  ⟨fun _ _ _ _ => none,
   fun _ _ _ _ => some ⟨1, 1⟩,
   fun _ _ _ => ⟨0, 0, 0, 0, 0⟩⟩

/-- An environment with a route whose reserve fetch fails, for C3. -/
def envC3b : SlipEnv :=
  ⟨fun _ _ _ _ => some ⟨"0xpair", "testdex", none⟩,
   fun _ _ _ _ => none,
   fun _ _ _ => ⟨0, 0, 0, 0, 0⟩⟩

/-! ## The estimation endpoint (`src/main.py`) -/

/-- The chain ids of `CHAIN_CONFIG` in `src/dex_config.py`. -/
def CHAIN_IDS : List ℕ := [1, 137, 42161, 10, 8453, 56, 43114]

/-- Strip leading and trailing whitespace, as Python `int(str)` does. -/
def pyStrip (cs : List Char) : List Char :=
  (((cs.dropWhile Char.isWhitespace).reverse).dropWhile Char.isWhitespace).reverse

/-- Decimal digit parsing for `pyParseInt`. -/
def digitsToNat (cs : List Char) : Option ℕ :=
  if cs = [] then none
  else if cs.all Char.isDigit then
    some (cs.foldl (fun acc c => 10 * acc + (c.toNat - 48)) 0)
  else none

/-- Python `int(s)` on a string: optional whitespace and sign, then decimal
digits.  `none` models the `ValueError` that the endpoint converts into an
`InvalidAmount` response. -/
def pyParseInt (s : String) : Option ℤ :=
  match pyStrip s.data with
  | '-' :: rest => (digitsToNat rest).map (fun n => -(n : ℤ))
  | '+' :: rest => (digitsToNat rest).map (fun n => (n : ℤ))
  | cs => (digitsToNat cs).map (fun n => (n : ℤ))

/-- Outcome of the `/slippage/estimate` endpoint: the two 400 validation
failures, the single 503 failure covering every `None` pipeline result,
and success. -/
inductive EstimateResult where
  | invalidChain
  | invalidAmount
  | unavailable
  | ok : SlippageRecommendation → EstimateResult

/-- The request model of the endpoint (`amount_in` is a string field). -/
structure SlippageRequest where
  token_in : String
  token_out : String
  amount_in : String
  chain : ℕ
  route_hint : Option String

/-- The `estimate_slippage` endpoint of `src/main.py`: chain validation,
`int(request.amount_in)` conversion (no negativity check), then the
pipeline; a falsy pipeline result becomes one undifferentiated 503. -/
def estimate_slippage (env : SlipEnv) (req : SlippageRequest) : EstimateResult :=
  if req.chain ∉ CHAIN_IDS then .invalidChain
  else
    match pyParseInt req.amount_in with
    | none => .invalidAmount
    | some amount_in_wei =>
      match calculate_safe_slippage env req.chain req.token_in req.token_out
          amount_in_wei req.route_hint with
      | none => .unavailable
      | some result => .ok result

/-- A fully working environment for C8: route and reserves resolve. -/
def envC8 : SlipEnv :=
  ⟨fun _ _ _ _ => some ⟨"0xpair", "testdex", none⟩,
   fun _ _ _ _ => some ⟨0, 0⟩,
   fun _ _ _ => ⟨0, 0, 0, 0, 0⟩⟩

theorem pyTrunc_of_nonneg {q : ℚ} (h : 0 ≤ q) : pyTrunc q = ⌊q⌋ := by
  simp [pyTrunc, not_lt.mpr h]

theorem pyTrunc_intCast (z : ℤ) : pyTrunc z = z := by
  unfold pyTrunc
  split
  · rw [show (-(z : ℚ)) = ((-z : ℤ) : ℚ) by push_cast; ring, Int.floor_intCast]
    omega
  · exact Int.floor_intCast z

/-! ### Basic facts about the rounding model -/

theorem rhe_intCast (z : ℤ) : rhe z = z := by
  simp [rhe, Int.floor_intCast]

theorem floor_le_rhe (m : ℚ) : ⌊m⌋ ≤ rhe m := by
  unfold rhe
  split
  · exact le_refl _
  · split
    · omega
    · split
      · exact le_refl _
      · omega

theorem rhe_le (m : ℚ) : (rhe m : ℚ) ≤ m + 1 / 2 := by
  have hf : (⌊m⌋ : ℚ) ≤ m := Int.floor_le m
  unfold rhe
  split
  · linarith
  · rename_i h1
    push_neg at h1
    split
    · push_cast
      linarith
    · rename_i h2
      push_neg at h2
      have h3 : m - ⌊m⌋ = 1 / 2 := le_antisymm h2 h1
      split
      · linarith
      · push_cast
        linarith

theorem qpow_natCast_q (n : ℕ) : ((2 ^ n : ℕ) : ℚ) = (2 : ℚ) ^ (n : ℤ) := by
  rw [zpow_natCast]
  push_cast
  ring

theorem qlog2_spec {q : ℚ} (hq : 0 < q) :
    (2 : ℚ) ^ qlog2 q ≤ q ∧ q < (2 : ℚ) ^ (qlog2 q + 1) := by
  have hnum : 0 < q.num := Rat.num_pos.mpr hq
  have hden : 0 < q.den := q.pos
  set a : ℕ := q.num.toNat with ha
  have ha0 : a ≠ 0 := by omega
  have hd0 : q.den ≠ 0 := by omega
  have hqa : (a : ℚ) / (q.den : ℚ) = q := by
    have : ((a : ℤ) : ℚ) = (q.num : ℚ) := by
      exact_mod_cast congrArg Int.cast (Int.toNat_of_nonneg hnum.le)
    push_cast at this
    rw [this]
    exact Rat.num_div_den q
  set la : ℕ := Nat.log2 a with hla
  set lb : ℕ := Nat.log2 q.den with hlb
  have h1 : 2 ^ la ≤ a := Nat.log2_self_le ha0
  have h2 : a < 2 ^ (la + 1) := (Nat.log2_lt ha0).mp (Nat.lt_succ_self la)
  have h3 : 2 ^ lb ≤ q.den := Nat.log2_self_le hd0
  have h4 : q.den < 2 ^ (lb + 1) := (Nat.log2_lt hd0).mp (Nat.lt_succ_self lb)
  have hdenQ : (0 : ℚ) < (q.den : ℚ) := by exact_mod_cast hden
  have hA1 : (2 : ℚ) ^ (la : ℤ) ≤ (a : ℚ) := by
    rw [← qpow_natCast_q]; exact_mod_cast h1
  have hA2 : (a : ℚ) < (2 : ℚ) ^ ((la : ℤ) + 1) := by
    rw [show ((la : ℤ) + 1) = ((la + 1 : ℕ) : ℤ) by push_cast; ring, ← qpow_natCast_q]
    exact_mod_cast h2
  have hB1 : (2 : ℚ) ^ (lb : ℤ) ≤ (q.den : ℚ) := by
    rw [← qpow_natCast_q]; exact_mod_cast h3
  have hB2 : (q.den : ℚ) < (2 : ℚ) ^ ((lb : ℤ) + 1) := by
    rw [show ((lb : ℤ) + 1) = ((lb + 1 : ℕ) : ℤ) by push_cast; ring, ← qpow_natCast_q]
    exact_mod_cast h4
  have hupper : q < (2 : ℚ) ^ ((la : ℤ) - lb + 1) := by
    rw [← hqa, div_lt_iff₀ hdenQ]
    calc (a : ℚ) < (2 : ℚ) ^ ((la : ℤ) + 1) := hA2
    _ = (2 : ℚ) ^ ((la : ℤ) - lb + 1) * (2 : ℚ) ^ (lb : ℤ) := by
          rw [← zpow_add₀ (by norm_num : (2 : ℚ) ≠ 0)]; ring_nf
    _ ≤ (2 : ℚ) ^ ((la : ℤ) - lb + 1) * (q.den : ℚ) :=
          mul_le_mul_of_nonneg_left hB1 (zpow_nonneg (by norm_num) _)
  have hlower : (2 : ℚ) ^ ((la : ℤ) - lb - 1) < q := by
    rw [← hqa, lt_div_iff₀ hdenQ]
    calc (2 : ℚ) ^ ((la : ℤ) - lb - 1) * (q.den : ℚ)
        < (2 : ℚ) ^ ((la : ℤ) - lb - 1) * (2 : ℚ) ^ ((lb : ℤ) + 1) :=
          mul_lt_mul_of_pos_left hB2 (zpow_pos (by norm_num) _)
    _ = (2 : ℚ) ^ (la : ℤ) := by
          rw [← zpow_add₀ (by norm_num : (2 : ℚ) ≠ 0)]; ring_nf
    _ ≤ (a : ℚ) := hA1
  unfold qlog2
  split
  · rename_i hle
    exact ⟨hle, hupper⟩
  · rename_i hgt
    push_neg at hgt
    refine ⟨hlower.le, ?_⟩
    calc q < (2 : ℚ) ^ ((la : ℤ) - lb) := hgt
    _ = (2 : ℚ) ^ ((la : ℤ) - lb - 1 + 1) := by ring_nf

theorem qlog2_eq_of {q : ℚ} {k : ℤ} (hq : 0 < q)
    (h1 : (2 : ℚ) ^ k ≤ q) (h2 : q < (2 : ℚ) ^ (k + 1)) : qlog2 q = k := by
  obtain ⟨l1, l2⟩ := qlog2_spec hq
  by_contra hne
  rcases lt_or_gt_of_ne hne with h | h
  · have : qlog2 q + 1 ≤ k := by omega
    have : (2 : ℚ) ^ (qlog2 q + 1) ≤ (2 : ℚ) ^ k := zpow_le_zpow_right₀ (by norm_num) this
    linarith
  · have : k + 1 ≤ qlog2 q := by omega
    have : (2 : ℚ) ^ (k + 1) ≤ (2 : ℚ) ^ qlog2 q := zpow_le_zpow_right₀ (by norm_num) this
    linarith

theorem roundDouble_zero : roundDouble 0 = 0 := by simp [roundDouble]

theorem roundDouble_of_pos {q : ℚ} (h : 0 < q) : roundDouble q = roundPos q := by
  rw [roundDouble, if_neg h.ne', if_neg (not_lt.mpr h.le)]

theorem roundPos_exact {q : ℚ} (z : ℤ) (hz : q * (2 : ℚ) ^ (52 - qlog2 q) = z) :
    roundPos q = q := by
  unfold roundPos
  rw [hz, rhe_intCast, ← hz, mul_assoc, ← zpow_add₀ (by norm_num : (2 : ℚ) ≠ 0)]
  norm_num

theorem qlog2_le_of_lt {q : ℚ} {m : ℤ} (hq : 0 < q) (h : q < (2 : ℚ) ^ (m + 1)) :
    qlog2 q ≤ m := by
  by_contra hgt
  push_neg at hgt
  have h1 := (qlog2_spec hq).1
  have h2 : (2 : ℚ) ^ (m + 1) ≤ (2 : ℚ) ^ qlog2 q :=
    zpow_le_zpow_right₀ (by norm_num) (by omega)
  linarith

theorem floatOfNat_eq_self {n : ℕ} (h : n < 2 ^ 53) : floatOfNat n = n := by
  by_cases hn : n = 0
  · simp [hn, floatOfNat, roundDouble]
  · have hpos : (0 : ℚ) < n := by exact_mod_cast Nat.pos_of_ne_zero hn
    rw [floatOfNat, roundDouble_of_pos hpos]
    have hlt : (n : ℚ) < (2 : ℚ) ^ ((52 : ℤ) + 1) := by
      have : ((n : ℕ) : ℚ) < ((2 ^ 53 : ℕ) : ℚ) := by exact_mod_cast h
      rw [qpow_natCast_q] at this
      exact_mod_cast this
    have he : qlog2 (n : ℚ) ≤ 52 := qlog2_le_of_lt hpos hlt
    set e := qlog2 (n : ℚ) with hedef
    set t : ℕ := (52 - e).toNat with ht
    have ht52 : (52 : ℤ) - e = (t : ℤ) := by omega
    refine roundPos_exact ((n : ℤ) * 2 ^ t) ?_
    rw [ht52]
    push_cast
    rw [zpow_natCast]

theorem roundPos_ge_int {q : ℚ} {k : ℤ} (hkq : (k : ℚ) ≤ q) (he : qlog2 q ≤ 52) :
    (k : ℚ) ≤ roundPos q := by
  set e := qlog2 q with hedef
  set t : ℕ := (52 - e).toNat with ht
  have ht52 : (52 : ℤ) - e = (t : ℤ) := by omega
  have hz : ((k * 2 ^ t : ℤ) : ℚ) = (k : ℚ) * (2 : ℚ) ^ ((52 : ℤ) - e) := by
    rw [ht52]
    push_cast
    rw [zpow_natCast]
  have hposp : (0 : ℚ) < (2 : ℚ) ^ ((52 : ℤ) - e) := zpow_pos (by norm_num) _
  have hzle : ((k * 2 ^ t : ℤ) : ℚ) ≤ q * (2 : ℚ) ^ ((52 : ℤ) - e) := by
    rw [hz]
    exact mul_le_mul_of_nonneg_right hkq hposp.le
  have hfloor : k * 2 ^ t ≤ ⌊q * (2 : ℚ) ^ ((52 : ℤ) - e)⌋ := Int.le_floor.mpr hzle
  have hrhe : k * 2 ^ t ≤ rhe (q * (2 : ℚ) ^ ((52 : ℤ) - e)) :=
    le_trans hfloor (floor_le_rhe _)
  have hcast : ((k * 2 ^ t : ℤ) : ℚ) ≤ (rhe (q * (2 : ℚ) ^ ((52 : ℤ) - e)) : ℚ) := by
    exact_mod_cast hrhe
  have hmul := mul_le_mul_of_nonneg_right hcast
    (zpow_nonneg (by norm_num : (0:ℚ) ≤ 2) (e - 52))
  rw [hz, mul_assoc, ← zpow_add₀ (by norm_num : (2 : ℚ) ≠ 0)] at hmul
  norm_num at hmul
  calc (k : ℚ) ≤ (rhe (q * (2 : ℚ) ^ ((52 : ℤ) - e)) : ℚ) * (2 : ℚ) ^ (e - 52) := hmul
  _ = roundPos q := rfl

theorem roundPos_le {q : ℚ} : roundPos q ≤ q + (2 : ℚ) ^ (qlog2 q - 53) := by
  unfold roundPos
  set e := qlog2 q with hedef
  have h := rhe_le (q * (2 : ℚ) ^ ((52 : ℤ) - e))
  have hpow : (0 : ℚ) < (2 : ℚ) ^ (e - 52) := zpow_pos (by norm_num) _
  have h1 : (2 : ℚ) ^ ((52 : ℤ) - e) * (2 : ℚ) ^ (e - 52) = 1 := by
    rw [← zpow_add₀ (by norm_num : (2 : ℚ) ≠ 0)]
    norm_num
  have h2 : (1 / 2 : ℚ) * (2 : ℚ) ^ (e - 52) = (2 : ℚ) ^ (e - 53) := by
    rw [show (e - 53) = (-1) + (e - 52) by ring, zpow_add₀ (by norm_num : (2 : ℚ) ≠ 0)]
    norm_num
  calc (rhe (q * (2 : ℚ) ^ ((52 : ℤ) - e)) : ℚ) * (2 : ℚ) ^ (e - 52)
      ≤ (q * (2 : ℚ) ^ ((52 : ℤ) - e) + 1 / 2) * (2 : ℚ) ^ (e - 52) :=
        mul_le_mul_of_nonneg_right h hpow.le
  _ = q * ((2 : ℚ) ^ ((52 : ℤ) - e) * (2 : ℚ) ^ (e - 52)) + (1 / 2) * (2 : ℚ) ^ (e - 52) := by
        ring
  _ = q + (2 : ℚ) ^ (e - 53) := by rw [h1, h2, mul_one]

theorem d001_eq : d001 = 5764607523034235 / 2 ^ 59 := by
  have he : qlog2 (1 / 100) = -7 := by
    refine qlog2_eq_of (by norm_num) ?_ ?_
    · norm_num
    · norm_num
  rw [d001, roundDouble, if_neg (by norm_num), if_neg (by norm_num), roundPos, he]
  rw [show ((52 : ℤ) - (-7)) = 59 by norm_num, show ((-7 : ℤ) - 52) = -59 by norm_num]
  rw [show ((1 : ℚ) / 100 * (2 : ℚ) ^ (59 : ℤ)) = 144115188075855872 / 25 by norm_num]
  rw [rhe]
  norm_num

/-- Below `2 ^ 49` the binary64 computation `float(n) * 0.01`, truncated to
an integer, agrees with exact integer division by 100. -/
theorem pyTrunc_dmul_d001 {n : ℕ} (hn : n ≤ 2 ^ 49) :
    pyTrunc (dmul (floatOfNat n) d001) = (n / 100 : ℕ) := by
  by_cases hn0 : n = 0
  · subst hn0
    rw [show floatOfNat 0 = 0 by simp [floatOfNat, roundDouble]]
    rw [dmul, zero_mul, roundDouble_zero]
    simp [pyTrunc]
  · have hposn : 0 < n := Nat.pos_of_ne_zero hn0
    have hlt : n < 2 ^ 53 := lt_of_le_of_lt hn (by norm_num)
    rw [dmul, floatOfNat_eq_self hlt, d001_eq]
    set v : ℚ := (n : ℚ) * (5764607523034235 / 2 ^ 59) with hv
    have hnQ : (0 : ℚ) < (n : ℚ) := by exact_mod_cast hposn
    have hvpos : 0 < v := by rw [hv]; positivity
    rw [roundDouble_of_pos hvpos]
    set k : ℕ := n / 100 with hk
    set r : ℕ := n % 100 with hr
    have hnkr : n = 100 * k + r := by rw [hk, hr]; omega
    have hrlt : r < 100 := by rw [hr]; omega
    have hkle : k ≤ 5629499534213 := by
      rw [hk]
      have hdd : n / 100 ≤ 2 ^ 49 / 100 := Nat.div_le_div_right hn
      calc n / 100 ≤ 2 ^ 49 / 100 := hdd
      _ = 5629499534213 := by norm_num
    have hkv : ((k : ℤ) : ℚ) ≤ v := by
      rw [hv]
      have h1 : ((k : ℤ) : ℚ) ≤ (n : ℚ) / 100 := by
        rw [le_div_iff₀ (by norm_num : (0:ℚ) < 100)]
        have h100 : (100 * k : ℕ) ≤ n := by omega
        calc ((k : ℤ) : ℚ) * 100 = ((100 * k : ℕ) : ℚ) := by push_cast; ring
        _ ≤ (n : ℚ) := by exact_mod_cast h100
      have h2 : (n : ℚ) / 100 ≤ (n : ℚ) * (5764607523034235 / 2 ^ 59) := by
        rw [div_eq_mul_inv]
        refine mul_le_mul_of_nonneg_left ?_ hnQ.le
        norm_num
      linarith
    have hvlt : v < (2 : ℚ) ^ ((43 : ℤ) + 1) := by
      rw [hv]
      have h1 : (n : ℚ) ≤ (2 : ℚ) ^ (49 : ℕ) := by
        have hcast : ((n : ℕ) : ℚ) ≤ ((2 ^ 49 : ℕ) : ℚ) := by exact_mod_cast hn
        calc (n : ℚ) ≤ ((2 ^ 49 : ℕ) : ℚ) := hcast
        _ = (2 : ℚ) ^ (49 : ℕ) := by norm_num
      have h2 : (n : ℚ) * (5764607523034235 / 2 ^ 59) ≤
          (2 : ℚ) ^ (49 : ℕ) * (5764607523034235 / 2 ^ 59) :=
        mul_le_mul_of_nonneg_right h1 (by norm_num)
      calc (n : ℚ) * (5764607523034235 / 2 ^ 59)
          ≤ (2 : ℚ) ^ (49 : ℕ) * (5764607523034235 / 2 ^ 59) := h2
      _ < (2 : ℚ) ^ ((43 : ℤ) + 1) := by norm_num
    have he43 : qlog2 v ≤ 43 := qlog2_le_of_lt hvpos hvlt
    have hge : ((k : ℤ) : ℚ) ≤ roundPos v := roundPos_ge_int hkv (by omega)
    have hle : roundPos v ≤ v + (2 : ℚ) ^ (-(10 : ℤ)) := by
      have h1 := roundPos_le (q := v)
      have h2 : (2 : ℚ) ^ (qlog2 v - 53) ≤ (2 : ℚ) ^ (-(10 : ℤ)) :=
        zpow_le_zpow_right₀ (by norm_num) (by omega)
      linarith
    have hup : v + (2 : ℚ) ^ (-(10 : ℤ)) < (k : ℚ) + 1 := by
      have hkQ : (k : ℚ) ≤ 5629499534213 := by exact_mod_cast hkle
      have hrQ : (r : ℚ) ≤ 99 := by
        have : r ≤ 99 := by omega
        exact_mod_cast this
      have hnQ2 : (n : ℚ) = 100 * (k : ℚ) + (r : ℚ) := by
        exact_mod_cast congrArg (Nat.cast : ℕ → ℚ) hnkr
      rw [hv, hnQ2, show ((2 : ℚ) ^ (-(10 : ℤ))) = 1 / 1024 by norm_num]
      have expand : (100 * (k : ℚ) + (r : ℚ)) * (5764607523034235 / 2 ^ 59) + 1 / 1024 =
          (k : ℚ) * (576460752303423500 / 576460752303423488)
          + (r : ℚ) * (5764607523034235 / 576460752303423488) + 1 / 1024 := by
        norm_num
        ring
      rw [expand]
      nlinarith [hkQ, hrQ]
    have hless : roundPos v < (k : ℚ) + 1 := lt_of_le_of_lt hle hup
    have hnonneg : (0 : ℚ) ≤ roundPos v := by
      have hkq : (0 : ℚ) ≤ ((k : ℤ) : ℚ) := by positivity
      linarith
    rw [pyTrunc_of_nonneg hnonneg]
    have : ⌊roundPos v⌋ = (k : ℤ) := by
      rw [Int.floor_eq_iff]
      constructor
      · exact hge
      · push_cast
        exact hless
    rw [this]

/-- Conversion: `float(999999999999999999)` rounds up to `10 ^ 18`. -/
theorem floatOfNat_999 : floatOfNat 999999999999999999 = 10 ^ 18 := by
  rw [floatOfNat]
  rw [show ((999999999999999999 : ℕ) : ℚ) = (999999999999999999 : ℚ) by norm_num]
  rw [roundDouble_of_pos (by norm_num)]
  have he : qlog2 (999999999999999999 : ℚ) = 59 :=
    qlog2_eq_of (by norm_num) (by norm_num) (by norm_num)
  rw [roundPos, he]
  rw [show ((52 : ℤ) - 59) = -7 by norm_num, show ((59 : ℤ) - 52) = 7 by norm_num]
  rw [show ((999999999999999999 : ℚ) * (2 : ℚ) ^ (-7 : ℤ)) =
      999999999999999999 / 128 by norm_num]
  rw [rhe]
  norm_num

/-- The binary64 product `float(10 ^ 18) * 0.01` rounds to exactly `10 ^ 16`. -/
theorem dmul_pow18_d001 : dmul (10 ^ 18 : ℚ) d001 = 10 ^ 16 := by
  rw [dmul, d001_eq]
  rw [show ((10 : ℚ) ^ 18 * (5764607523034235 / 2 ^ 59)) =
      5764607523034235000000000000000000 / 576460752303423488 by norm_num]
  rw [roundDouble_of_pos (by norm_num)]
  have he : qlog2 (5764607523034235000000000000000000 / 576460752303423488 : ℚ) = 53 :=
    qlog2_eq_of (by norm_num) (by norm_num) (by norm_num)
  rw [roundPos, he]
  rw [show ((52 : ℤ) - 53) = -1 by norm_num, show ((53 : ℤ) - 52) = 1 by norm_num]
  rw [show ((5764607523034235000000000000000000 / 576460752303423488 : ℚ) * (2 : ℚ) ^ (-1 : ℤ)) =
      5764607523034235000000000000000000 / 1152921504606846976 by norm_num]
  rw [rhe]
  norm_num

/-! ### Pool analyzer lemmas -/

theorem int_fdiv_eq_floor {a b : ℤ} (hb : 0 < b) :
    Int.fdiv a b = ⌊(a : ℚ) / (b : ℚ)⌋ := by
  obtain ⟨n, rfl⟩ : ∃ n : ℕ, b = (n : ℤ) := ⟨b.toNat, by omega⟩
  rw [Int.fdiv_eq_ediv _ (by positivity)]
  rw [show (((n : ℤ)) : ℚ) = (n : ℚ) by push_cast; ring]
  exact (Rat.floor_intCast_div_natCast a n).symm

/-- Claim C5, counterexample: at `amount_in = 0` (with reserves 1, 1 and the
default fee 30) the output is `0`, which is not strictly less than
`amount_in * reserve_out / reserve_in = 0`. -/
theorem c5_counterexample :
    calculate_output_amount 0 1 1 30 = some 0 ∧
    ¬ ((0 : ℚ) < (0 : ℚ) * 1 / 1) := by
  constructor
  · rw [calculate_output_amount, pyFloorDiv, if_neg (by norm_num)]
    norm_num [Int.fdiv]
  · norm_num

/-- Claim C5 (amended): for reserves `> 0` and `0 ≤ fee_bps ≤ 10000`,
`calculate_output_amount` is defined and monotonically non-decreasing in
`amount_in` over non-negative amounts, and for `amount_in > 0` and
`fee_bps > 0` its result is strictly below the spot value
`amount_in * reserve_out / reserve_in`. -/
theorem c5_output_monotone_and_below_spot
    (amount_in amount_in' reserve_in reserve_out fee_bps : ℤ)
    (ha : 0 ≤ amount_in) (haa : amount_in ≤ amount_in')
    (hrin : 0 < reserve_in) (hrout : 0 < reserve_out)
    (hf0 : 0 ≤ fee_bps) (hf : fee_bps ≤ 10000) :
    ∃ o o', calculate_output_amount amount_in reserve_in reserve_out fee_bps = some o ∧
      calculate_output_amount amount_in' reserve_in reserve_out fee_bps = some o' ∧
      o ≤ o' ∧
      (0 < amount_in → 0 < fee_bps →
        (o : ℚ) < (amount_in : ℚ) * (reserve_out : ℚ) / (reserve_in : ℚ)) := by
  set c : ℤ := 10000 - fee_bps with hcdef
  have hc0 : 0 ≤ c := by omega
  have ha' : 0 ≤ amount_in' := le_trans ha haa
  have hden : 0 < reserve_in * 10000 + amount_in * c := by nlinarith
  have hden' : 0 < reserve_in * 10000 + amount_in' * c := by nlinarith
  refine ⟨Int.fdiv (amount_in * c * reserve_out) (reserve_in * 10000 + amount_in * c),
          Int.fdiv (amount_in' * c * reserve_out) (reserve_in * 10000 + amount_in' * c),
          ?_, ?_, ?_, ?_⟩
  · rw [calculate_output_amount, pyFloorDiv, if_neg hden.ne']
  · rw [calculate_output_amount, pyFloorDiv, if_neg hden'.ne']
  · rw [int_fdiv_eq_floor hden, int_fdiv_eq_floor hden']
    apply Int.floor_le_floor
    have key : (amount_in * c * reserve_out) * (reserve_in * 10000 + amount_in' * c)
        ≤ (amount_in' * c * reserve_out) * (reserve_in * 10000 + amount_in * c) := by
      have h1 : 0 ≤ c * reserve_out * reserve_in * 10000 * (amount_in' - amount_in) := by
        apply mul_nonneg
        · positivity
        · omega
      nlinarith [h1]
    have hdenQ : (0 : ℚ) < ((reserve_in * 10000 + amount_in * c : ℤ) : ℚ) := by
      exact_mod_cast hden
    have hdenQ' : (0 : ℚ) < ((reserve_in * 10000 + amount_in' * c : ℤ) : ℚ) := by
      exact_mod_cast hden'
    rw [div_le_div_iff hdenQ hdenQ']
    exact_mod_cast key
  · intro hapos hfpos
    rw [int_fdiv_eq_floor hden]
    have hclt : c < 10000 := by omega
    have key : (amount_in * c * reserve_out) * reserve_in
        < (amount_in * reserve_out) * (reserve_in * 10000 + amount_in * c) := by
      have h2 : c * reserve_in < 10000 * reserve_in + amount_in * c := by nlinarith
      nlinarith [mul_pos hapos hrout]
    have hdenQ : (0 : ℚ) < ((reserve_in * 10000 + amount_in * c : ℤ) : ℚ) := by
      exact_mod_cast hden
    have hrinQ : (0 : ℚ) < ((reserve_in : ℤ) : ℚ) := by exact_mod_cast hrin
    have hdiv : ((amount_in * c * reserve_out : ℤ) : ℚ) /
          ((reserve_in * 10000 + amount_in * c : ℤ) : ℚ)
        < (amount_in : ℚ) * (reserve_out : ℚ) / (reserve_in : ℚ) := by
      rw [div_lt_div_iff hdenQ hrinQ]
      push_cast
      exact_mod_cast key
    calc (⌊((amount_in * c * reserve_out : ℤ) : ℚ) /
            ((reserve_in * 10000 + amount_in * c : ℤ) : ℚ)⌋ : ℚ)
        ≤ ((amount_in * c * reserve_out : ℤ) : ℚ) /
            ((reserve_in * 10000 + amount_in * c : ℤ) : ℚ) := Int.floor_le _
    _ < (amount_in : ℚ) * (reserve_out : ℚ) / (reserve_in : ℚ) := hdiv

/-- Claim C5 amended-theorem witness at `amount_in = 1 ≤ 2 = amount_in'`,
reserves 1000/2000, fee 30. -/
theorem c5_witness :
    ∃ o o', calculate_output_amount 1 1000 2000 30 = some o ∧
      calculate_output_amount 2 1000 2000 30 = some o' ∧
      o ≤ o' ∧
      (0 < (1 : ℤ) → 0 < (30 : ℤ) →
        (o : ℚ) < (1 : ℚ) * (2000 : ℚ) / (1000 : ℚ)) :=
  c5_output_monotone_and_below_spot 1 2 1000 2000 30 (by norm_num) (by norm_num)
    (by norm_num) (by norm_num) (by norm_num) (by norm_num)

/-- Claim C6: `calculate_price_impact` returns `0.0` for a zero amount on a
positive input reserve, and the sentinel `100.0` whenever the input reserve
is zero, for every amount and output reserve; no division by zero occurs
(the function is total). -/
theorem c6_price_impact_edges (amount_in : ℤ) (reserve_in reserve_out : ℕ) :
    calculate_price_impact amount_in 0 reserve_out = 100 ∧
    (0 < reserve_in → calculate_price_impact 0 reserve_in reserve_out = 0) := by
  constructor
  · rw [calculate_price_impact, if_pos rfl]
  · intro h
    rw [calculate_price_impact, if_neg (by omega)]
    norm_num

/-- Claim C6 witness at `amount_in = 7`, `reserve_in = 3`, `reserve_out = 5`. -/
theorem c6_witness : calculate_price_impact 0 3 5 = 0 :=
  (c6_price_impact_edges 7 3 5).2 (by norm_num)

/-- Claim C7, counterexample: for `reserve_in = 10 ^ 18 - 1` the code's
`int(reserve_in * 0.01)` is `10 ^ 16` under binary64 arithmetic, while the
exact floor of one hundredth of `reserve_in` is `10 ^ 16 - 1`. -/
theorem c7_counterexample :
    (estimate_liquidity_depth 999999999999999999 0 18 18).recommended_max_trade
      = 10000000000000000 ∧
    (999999999999999999 : ℕ) / 100 = 9999999999999999 := by
  constructor
  · show pyTrunc (dmul (floatOfNat 999999999999999999) d001) = 10000000000000000
    rw [floatOfNat_999, dmul_pow18_d001, pyTrunc_of_nonneg (by norm_num)]
    norm_num
  · norm_num

/-- Claim C7 (amended): `recommended_max_trade` equals the exact
`floor(reserve_in / 100)` for every `reserve_in ≤ 2 ^ 49`; for larger
reserves the float product can differ from the exact floor
(`reserve_in = 10 ^ 18 - 1` yields `10 ^ 16` instead of `10 ^ 16 - 1`). -/
theorem c7_recommended_max_trade (reserve_in reserve_out decimals_in decimals_out : ℕ)
    (h : reserve_in ≤ 2 ^ 49) :
    (estimate_liquidity_depth reserve_in reserve_out
        decimals_in decimals_out).recommended_max_trade = (reserve_in / 100 : ℕ) := by
  show pyTrunc (dmul (floatOfNat reserve_in) d001) = (reserve_in / 100 : ℕ)
  exact pyTrunc_dmul_d001 h

/-- Claim C7 amended-theorem witness at `reserve_in = 123456`. -/
theorem c7_witness :
    (estimate_liquidity_depth 123456 7 18 18).recommended_max_trade
      = (123456 / 100 : ℕ) :=
  c7_recommended_max_trade 123456 7 18 18 (by norm_num)

/-- Claim C10, counterexample: at the non-negative inputs
`amount_in = 10000`, `reserve_in = 1`, `reserve_out = 5`,
`fee_bps = 10001`, the denominator is zero (the division raises) even
though `reserve_in ≠ 0`, contradicting the claim that the division is
well-defined for all other non-negative inputs. -/
theorem c10_counterexample :
    calculate_output_amount 10000 1 5 10001 = none ∧
    ¬ ((1 : ℤ) = 0 ∧ (10000 : ℤ) * (10000 - 10001) = 0) := by
  constructor
  · rw [calculate_output_amount, pyFloorDiv, if_pos (by norm_num)]
  · norm_num

/-- Claim C10 (amended): for non-negative inputs with `fee_bps ≤ 10000`,
the division in `calculate_output_amount` is by zero exactly when
`reserve_in = 0` and `amount_in * (10000 - fee_bps) = 0`; with
`fee_bps > 10000` other non-negative inputs also make the denominator zero. -/
theorem c10_division_defined_iff (amount_in reserve_in reserve_out fee_bps : ℤ)
    (ha : 0 ≤ amount_in) (hr : 0 ≤ reserve_in)
    (hf0 : 0 ≤ fee_bps) (hf : fee_bps ≤ 10000) :
    (calculate_output_amount amount_in reserve_in reserve_out fee_bps = none ↔
      (reserve_in = 0 ∧ amount_in * (10000 - fee_bps) = 0)) := by
  have hp : 0 ≤ amount_in * (10000 - fee_bps) := mul_nonneg ha (by omega)
  rw [calculate_output_amount, pyFloorDiv]
  set p : ℤ := amount_in * (10000 - fee_bps) with hpdef
  by_cases hd : reserve_in * 10000 + p = 0
  · rw [if_pos hd]
    refine ⟨fun _ => ?_, fun _ => rfl⟩
    omega
  · rw [if_neg hd]
    constructor
    · intro h
      exact absurd h (by simp)
    · rintro ⟨h1, h2⟩
      exfalso
      apply hd
      rw [h1, h2]
      ring

/-- Claim C10 amended-theorem witness: the empty-pool zero-amount case
divides by zero. -/
theorem c10_witness : calculate_output_amount 0 0 5 30 = none :=
  (c10_division_defined_iff 0 0 5 30 (by norm_num) (by norm_num) (by norm_num)
    (by norm_num)).mpr ⟨rfl, by norm_num⟩

/-- Claim C9: `analyze_trade_sizes []` is all-zero with `total_swaps = 0`;
for every input list `total_swaps` is the pre-filter count, and
`volatility_factor` is `0.0` whenever no swap has positive `trade_size`. -/
theorem c9_analyze_trade_sizes (sqrtQ : ℚ → ℚ) (swaps : List SwapEvent) :
    analyze_trade_sizes sqrtQ [] = ⟨0, 0, 0, 0, 0⟩ ∧
    (analyze_trade_sizes sqrtQ swaps).total_swaps = swaps.length ∧
    ((∀ s ∈ swaps, s.trade_size = 0) →
      (analyze_trade_sizes sqrtQ swaps).volatility_factor = 0) := by
  refine ⟨?_, ?_, ?_⟩
  · rw [analyze_trade_sizes, if_pos rfl]
  · by_cases h0 : swaps = []
    · subst h0
      rw [analyze_trade_sizes, if_pos rfl]
      rfl
    · rw [analyze_trade_sizes, if_neg h0]
      by_cases h1 : (swaps.map SwapEvent.trade_size).filter (fun t => decide (0 < t)) = []
      · rw [if_pos h1]
      · rw [if_neg h1]
  · intro hz
    by_cases h0 : swaps = []
    · subst h0
      rw [analyze_trade_sizes, if_pos rfl]
    · rw [analyze_trade_sizes, if_neg h0]
      have h1 : (swaps.map SwapEvent.trade_size).filter (fun t => decide (0 < t)) = [] := by
        rw [List.filter_eq_nil_iff]
        intro t ht
        rw [List.mem_map] at ht
        obtain ⟨s, hs, rfl⟩ := ht
        simp [hz s hs]
      rw [if_pos h1]

/-- Claim C9 witness: a single swap of `trade_size = 0` gives
`volatility_factor = 0`. -/
theorem c9_witness :
    (analyze_trade_sizes id [⟨1, 0, 0, 0, 0, 0⟩]).volatility_factor = 0 :=
  (c9_analyze_trade_sizes id [⟨1, 0, 0, 0, 0, 0⟩]).2.2 (by
    intro s hs
    rcases List.mem_singleton.mp hs with rfl
    rfl)

theorem find_best_route_scan_first (env : RpcEnv) (chain_id : ℕ)
    (token_in token_out : String) (l1 l2 : List (String × String))
    (dex_name factory_address pair_address : String)
    (hfail : ∀ p ∈ l1, find_pair_on_dex env chain_id p.1 token_in token_out = none)
    (hfound : find_pair_on_dex env chain_id dex_name token_in token_out = some pair_address) :
    find_best_route_scan env chain_id token_in token_out
      (l1 ++ (dex_name, factory_address) :: l2) =
      some ⟨pair_address, dex_name, some factory_address⟩ := by
  induction l1 with
  | nil => simp [find_best_route_scan, hfound]
  | cons head tail ih =>
    obtain ⟨d0, f0⟩ := head
    have h0 := hfail (d0, f0) (List.mem_cons_self _ _)
    simp only [List.cons_append, find_best_route_scan, h0]
    exact ih (fun p hp => hfail p (List.mem_cons_of_mem _ hp))

/-- Claim C4: without a hint, route discovery visits the chain's configured
exchanges in the registry's enumeration order and returns the route of the
first exchange whose probe yields a pair; every earlier per-exchange
failure (collapsed to `none` by `find_pair_on_dex`) is skipped. -/
theorem c4_first_nonzero_pair_wins (env : RpcEnv) (chain_id : ℕ)
    (token_in token_out : String) (l1 l2 : List (String × String))
    (dex_name factory_address pair_address : String)
    (hsplit : DEX_FACTORIES chain_id = l1 ++ (dex_name, factory_address) :: l2)
    (hfail : ∀ p ∈ l1, find_pair_on_dex env chain_id p.1 token_in token_out = none)
    (hfound : find_pair_on_dex env chain_id dex_name token_in token_out = some pair_address) :
    find_best_route env chain_id token_in token_out none =
      some ⟨pair_address, dex_name, some factory_address⟩ := by
  show find_best_route_scan env chain_id token_in token_out (DEX_FACTORIES chain_id) =
    some ⟨pair_address, dex_name, some factory_address⟩
  rw [hsplit]
  exact find_best_route_scan_first env chain_id token_in token_out l1 l2
    dex_name factory_address pair_address hfail hfound

/-- Claim C4 witness: with E1 = uniswap_v2 (no pair) and E2 = sushiswap
(has pair) in that registry order on chain 1, discovery returns E2's pair
address and exchange name. -/
theorem c4_witness :
    find_best_route envC4 1 "0xTOKENA" "0xTOKENB" none =
      some ⟨"0xPAIR", "sushiswap", some "0xC0AEe478e3658e2610c5F7A4A2E1777cE9e4f2Ac"⟩ :=
  c4_first_nonzero_pair_wins envC4 1 "0xTOKENA" "0xTOKENB"
    [("uniswap_v2", "0x5C69bEe701ef814a2B6a3EDD4B1652CB9cc5aA6f")] []
    "sushiswap" "0xC0AEe478e3658e2610c5F7A4A2E1777cE9e4f2Ac" "0xPAIR"
    rfl
    (by
      intro p hp
      rcases List.mem_singleton.mp hp with rfl
      rfl)
    rfl

/-- Claim C1: whenever the pipeline obtains a route, reserves and
volatility metrics, `min_safe_slip_bps` of the returned recommendation
equals `clamp(trunc(price_impact_bps * 1.5) + trunc(volatility_factor *
100) + liquidity_buffer + 20, 50, 5000)` where `price_impact_bps =
trunc(price_impact_percent * 100)` and the liquidity buffer is 50/25/10
for score low/medium/high; consequently it always lies in [50, 5000]. -/
theorem c1_min_safe_slip_formula (env : SlipEnv) (chain_id : ℕ)
    (token_in token_out : String) (amount_in : ℤ) (route_hint : Option String)
    (route : Route) (reserves : PoolReserves)
    (hroute : env.find_best_route chain_id token_in token_out route_hint = some route)
    (hres : env.get_pool_reserves chain_id route.pair_address token_in token_out
      = some reserves) :
    ∃ rec, calculate_safe_slippage env chain_id token_in token_out amount_in route_hint
        = some rec ∧
      rec.min_safe_slip_bps =
        max 50 (min 5000
          (pyTrunc ((pyTrunc (calculate_price_impact amount_in reserves.reserve_in
              reserves.reserve_out * 100) : ℚ) * (3 / 2))
           + pyTrunc ((env.get_volatility_metrics chain_id route.pair_address
              500).volatility_factor * 100)
           + (match (estimate_liquidity_depth reserves.reserve_in reserves.reserve_out
                18 18).liquidity_score with
              | .low => 50
              | .medium => 25
              | .high => 10)
           + 20)) ∧
      50 ≤ rec.min_safe_slip_bps ∧ rec.min_safe_slip_bps ≤ 5000 := by
  simp only [calculate_safe_slippage, hroute, hres]
  refine ⟨_, rfl, rfl, ?_, ?_⟩
  · exact le_max_left _ _
  · exact max_le (by norm_num) (min_le_left _ _)

/-- Claim C1 witness at a concrete environment and request. -/
theorem c1_witness :
    ∃ rec, calculate_safe_slippage envC1 1 "0xa" "0xb" 7 none = some rec ∧
      rec.min_safe_slip_bps =
        max 50 (min 5000
          (pyTrunc ((pyTrunc (calculate_price_impact 7
              (⟨0, 0⟩ : PoolReserves).reserve_in
              (⟨0, 0⟩ : PoolReserves).reserve_out * 100) : ℚ) * (3 / 2))
           + pyTrunc ((envC1.get_volatility_metrics 1
              (⟨"0xpair", "testdex", none⟩ : Route).pair_address
              500).volatility_factor * 100)
           + (match (estimate_liquidity_depth (⟨0, 0⟩ : PoolReserves).reserve_in
                (⟨0, 0⟩ : PoolReserves).reserve_out 18 18).liquidity_score with
              | .low => 50
              | .medium => 25
              | .high => 10)
           + 20)) ∧
      50 ≤ rec.min_safe_slip_bps ∧ rec.min_safe_slip_bps ≤ 5000 :=
  c1_min_safe_slip_formula envC1 1 "0xa" "0xb" 7 none
    ⟨"0xpair", "testdex", none⟩ ⟨0, 0⟩ rfl rfl

/-- Claim C2, counterexample: in a trace where the hop's pipeline reserve
fetch succeeds (instant 0) but the separate propagation refetch fails
(instant 1), the multi-hop call does not fail — it silently keeps the
stale amount and returns a full result, refuting the claim that any
hop's reserve-fetch failure fails the whole call. -/
theorem c2_counterexample :
    (envsC2 0).get_pool_reserves 1 "0xpair" "0xa" "0xb" = some ⟨0, 0⟩ ∧
    (envsC2 1).get_pool_reserves 1 "0xpair" "0xa" "0xb" = none ∧
    calculate_multi_hop_slippage envsC2 1 [("0xa", "0xb")] 7 ≠ none := by
  refine ⟨rfl, rfl, ?_⟩
  have hok : ∃ r, calculate_multi_hop_slippage envsC2 1 [("0xa", "0xb")] 7 = some r :=
    ⟨_, rfl⟩
  obtain ⟨r, hr⟩ := hok
  rw [hr]
  simp

/-- Claim C2 (amended): per hop, when the separate propagation reserve
refetch succeeds, hop i+1's input is `calculate_output_amount` of hop i's
input and the refetched reserves; when the refetch fails, the failure is
silently absorbed and hop i+1 reuses hop i's input amount; only a failure
of the reserve fetch inside the hop's single-hop pipeline fails the whole
multi-hop call with no partial result. -/
theorem c2_multi_hop_propagation (envs : ℕ → SlipEnv) (chain_id : ℕ)
    (token_in token_out : String) (rest : List (String × String))
    (amount_in : ℤ) (t : ℕ) (total : ℤ) (details : List HopDetail) :
    (∀ rec reserves amount_out,
      calculate_safe_slippage (envs t) chain_id token_in token_out amount_in none
        = some rec →
      (envs (t + 1)).get_pool_reserves chain_id rec.pair_address token_in token_out
        = some reserves →
      calculate_output_amount amount_in reserves.reserve_in reserves.reserve_out 30
        = some amount_out →
      multi_hop_go envs chain_id ((token_in, token_out) :: rest) t amount_in total details =
        multi_hop_go envs chain_id rest (t + 2) amount_out (total + rec.min_safe_slip_bps)
          (details ++ [⟨token_in, token_out, rec.min_safe_slip_bps, rec.pair_address⟩])) ∧
    (∀ rec,
      calculate_safe_slippage (envs t) chain_id token_in token_out amount_in none
        = some rec →
      (envs (t + 1)).get_pool_reserves chain_id rec.pair_address token_in token_out
        = none →
      multi_hop_go envs chain_id ((token_in, token_out) :: rest) t amount_in total details =
        multi_hop_go envs chain_id rest (t + 2) amount_in (total + rec.min_safe_slip_bps)
          (details ++ [⟨token_in, token_out, rec.min_safe_slip_bps, rec.pair_address⟩])) ∧
    (∀ route, (envs t).find_best_route chain_id token_in token_out none = some route →
      (envs t).get_pool_reserves chain_id route.pair_address token_in token_out = none →
      multi_hop_go envs chain_id ((token_in, token_out) :: rest) t amount_in total details
        = none) ∧
    (∀ route, (envs 0).find_best_route chain_id token_in token_out none = some route →
      (envs 0).get_pool_reserves chain_id route.pair_address token_in token_out = none →
      calculate_multi_hop_slippage envs chain_id ((token_in, token_out) :: rest) amount_in
        = none) := by
  refine ⟨?_, ?_, ?_, ?_⟩
  · intro rec reserves amount_out h1 h2 h3
    simp only [multi_hop_go, h1, h2, h3]
  · intro rec h1 h2
    simp only [multi_hop_go, h1, h2]
  · intro route h1 h2
    have hcalc : calculate_safe_slippage (envs t) chain_id token_in token_out amount_in
        none = none := by
      simp only [calculate_safe_slippage, h1, h2]
    simp only [multi_hop_go, hcalc]
  · intro route h1 h2
    have hcalc : calculate_safe_slippage (envs 0) chain_id token_in token_out amount_in
        none = none := by
      simp only [calculate_safe_slippage, h1, h2]
    simp only [calculate_multi_hop_slippage, multi_hop_go, hcalc]

/-- Claim C2 amended-theorem witness, exercising the propagation conjunct:
with every RPC call succeeding on an empty pool, processing the single hop
steps to the rest of the path with the propagated output amount 0 =
`calculate_output_amount 7 0 0 30`. -/
theorem c2_witness :
    multi_hop_go envsC2w 1 [("0xa", "0xb")] 0 7 0 [] =
      multi_hop_go envsC2w 1 [] (0 + 2) 0
        (0 + max 50 (min 5000
          (pyTrunc ((pyTrunc (calculate_price_impact 7 (⟨0, 0⟩ : PoolReserves).reserve_in
              (⟨0, 0⟩ : PoolReserves).reserve_out * 100) : ℚ) * (3 / 2))
           + pyTrunc (((envsC2w 0).get_volatility_metrics 1
              (⟨"0xpair", "testdex", none⟩ : Route).pair_address 500).volatility_factor * 100)
           + (match (estimate_liquidity_depth (⟨0, 0⟩ : PoolReserves).reserve_in
                (⟨0, 0⟩ : PoolReserves).reserve_out 18 18).liquidity_score with
              | .low => 50
              | .medium => 25
              | .high => 10)
           + 20)))
        ([] ++ [⟨"0xa", "0xb",
          max 50 (min 5000
            (pyTrunc ((pyTrunc (calculate_price_impact 7 (⟨0, 0⟩ : PoolReserves).reserve_in
                (⟨0, 0⟩ : PoolReserves).reserve_out * 100) : ℚ) * (3 / 2))
             + pyTrunc (((envsC2w 0).get_volatility_metrics 1
                (⟨"0xpair", "testdex", none⟩ : Route).pair_address 500).volatility_factor * 100)
             + (match (estimate_liquidity_depth (⟨0, 0⟩ : PoolReserves).reserve_in
                  (⟨0, 0⟩ : PoolReserves).reserve_out 18 18).liquidity_score with
                | .low => 50
                | .medium => 25
                | .high => 10)
             + 20)),
          "0xpair"⟩]) :=
  (c2_multi_hop_propagation envsC2w 1 "0xa" "0xb" [] 7 0 0 []).1 _ ⟨0, 0⟩ 0 rfl rfl rfl

/-- Claim C3, counterexample: a request with no route and a request with a
route but unreadable reserves produce the identical result `none` (the
endpoint then raises one undifferentiated 503), so the two failure causes
are conflated, contrary to the claim. -/
theorem c3_counterexample :
    envC3a.find_best_route 1 "0xa" "0xb" none = none ∧
    envC3b.find_best_route 1 "0xa" "0xb" none = some ⟨"0xpair", "testdex", none⟩ ∧
    envC3b.get_pool_reserves 1 "0xpair" "0xa" "0xb" = none ∧
    calculate_safe_slippage envC3a 1 "0xa" "0xb" 5 none =
      calculate_safe_slippage envC3b 1 "0xa" "0xb" 5 none ∧
    calculate_safe_slippage envC3a 1 "0xa" "0xb" 5 none = none :=
  ⟨rfl, rfl, rfl, rfl, rfl⟩

/-- Claim C3 (amended): the caller receives either a complete,
internally-consistent recommendation or a failure, never a partial
recommendation; but both the no-route and the failed-reserves causes
collapse to the same `none` result and are not distinguishable. -/
theorem c3_complete_or_none (env : SlipEnv) (chain_id : ℕ)
    (token_in token_out : String) (amount_in : ℤ) (route_hint : Option String) :
    (env.find_best_route chain_id token_in token_out route_hint = none →
      calculate_safe_slippage env chain_id token_in token_out amount_in route_hint
        = none) ∧
    (∀ route, env.find_best_route chain_id token_in token_out route_hint = some route →
      env.get_pool_reserves chain_id route.pair_address token_in token_out = none →
      calculate_safe_slippage env chain_id token_in token_out amount_in route_hint
        = none) ∧
    (∀ rec, calculate_safe_slippage env chain_id token_in token_out amount_in route_hint
        = some rec →
      ∃ route reserves,
        env.find_best_route chain_id token_in token_out route_hint = some route ∧
        env.get_pool_reserves chain_id route.pair_address token_in token_out
          = some reserves ∧
        rec.route_used = route.dex_name ∧
        rec.pair_address = route.pair_address ∧
        rec.pool_depths.token_in_reserve = reserves.reserve_in ∧
        rec.pool_depths.token_out_reserve = reserves.reserve_out ∧
        50 ≤ rec.min_safe_slip_bps ∧ rec.min_safe_slip_bps ≤ 5000) := by
  refine ⟨?_, ?_, ?_⟩
  · intro h
    simp only [calculate_safe_slippage, h]
  · intro route h1 h2
    simp only [calculate_safe_slippage, h1, h2]
  · intro rec hrec
    rw [calculate_safe_slippage] at hrec
    cases hfind : env.find_best_route chain_id token_in token_out route_hint with
    | none =>
      rw [hfind] at hrec
      cases hrec
    | some route =>
      rw [hfind] at hrec
      dsimp only at hrec
      cases hres : env.get_pool_reserves chain_id route.pair_address token_in token_out with
      | none =>
        rw [hres] at hrec
        cases hrec
      | some reserves =>
        rw [hres] at hrec
        dsimp only at hrec
        rw [Option.some.injEq] at hrec
        subst hrec
        refine ⟨route, reserves, rfl, hres, rfl, rfl, rfl, rfl, ?_, ?_⟩
        · exact le_max_left _ _
        · exact max_le (by norm_num) (min_le_left _ _)

/-- Claim C3 amended-theorem witness: the no-route cause yields `none`. -/
theorem c3_witness :
    calculate_safe_slippage envC3a 1 "0xa" "0xb" 5 none = none :=
  (c3_complete_or_none envC3a 1 "0xa" "0xb" 5 none).1 rfl

/-- Claim C8, counterexample: the negative amount string `"-5"` parses and
is accepted into the pipeline — the endpoint returns a full
recommendation, not `InvalidAmount`. -/
theorem c8_counterexample :
    pyParseInt "-5" = some (-5) ∧
    estimate_slippage envC8 ⟨"0xa", "0xb", "-5", 1, none⟩ ≠ EstimateResult.invalidAmount ∧
    estimate_slippage envC8 ⟨"0xa", "0xb", "-5", 1, none⟩ ≠ EstimateResult.invalidChain ∧
    estimate_slippage envC8 ⟨"0xa", "0xb", "-5", 1, none⟩ ≠ EstimateResult.unavailable := by
  have hok : ∃ rec, estimate_slippage envC8 ⟨"0xa", "0xb", "-5", 1, none⟩
      = EstimateResult.ok rec := ⟨_, rfl⟩
  obtain ⟨rec, hrec⟩ := hok
  refine ⟨rfl, ?_, ?_, ?_⟩ <;> (rw [hrec]; simp)

/-- Claim C8 (amended): on a supported chain the endpoint answers
`InvalidAmount` exactly when the amount string fails Python `int()`
parsing; any parsed amount — negative included — enters the pipeline. -/
theorem c8_invalid_amount_iff (env : SlipEnv) (req : SlippageRequest)
    (hchain : req.chain ∈ CHAIN_IDS) :
    (estimate_slippage env req = .invalidAmount ↔ pyParseInt req.amount_in = none) ∧
    (∀ n, pyParseInt req.amount_in = some n →
      estimate_slippage env req =
        match calculate_safe_slippage env req.chain req.token_in req.token_out n
            req.route_hint with
        | none => .unavailable
        | some result => .ok result) := by
  constructor
  · rw [estimate_slippage, if_neg (not_not_intro hchain)]
    cases hp : pyParseInt req.amount_in with
    | none => simp
    | some n =>
      simp only
      constructor
      · intro h
        exfalso
        cases hcalc : calculate_safe_slippage env req.chain req.token_in req.token_out n
            req.route_hint with
        | none =>
          rw [hcalc] at h
          exact EstimateResult.noConfusion h
        | some r =>
          rw [hcalc] at h
          exact EstimateResult.noConfusion h
      · intro h
        exact Option.noConfusion h
  · intro n hp
    rw [estimate_slippage, if_neg (not_not_intro hchain)]
    simp only [hp]

/-- Claim C8 amended-theorem witness: an unparseable amount string yields
`InvalidAmount`. -/
theorem c8_witness :
    estimate_slippage envC8 ⟨"0xa", "0xb", "abc", 1, none⟩
      = EstimateResult.invalidAmount :=
  ((c8_invalid_amount_iff envC8 ⟨"0xa", "0xb", "abc", 1, none⟩ (by decide)).1).mpr rfl
